import Mathlib

/-!
Shallow embedding of the discord-paginationembed pagination engine
(src/FieldsEmbed.ts and src/Embeds.ts), with theorems settling the
specification claims about page computation, navigation invariants,
page slicing, configuration validation, build-time checks, initial
rendering, render purity, the page indicator, and the bulk setters.

Conventions of the embedding:
* JavaScript numbers that the claims restrict to nonnegative integers
  (page, pages, array lengths, elementsPerPage inside a running
  session) are modelled as `Nat`; where a claim quantifies over
  arbitrary JavaScript inputs (the `setElementsPerPage` argument) the
  value is modelled at the `JSValue` level with a rational payload.
* Methods that throw are modelled with `Except String`; the thrown
  message is the string of the `.error`.
* Transport side effects (sending or editing the displayed message)
  are reified as an `Effect` value returned next to the state; an
  `.error` result carries no effect, so an erroring method performs
  no send and no edit.
* `undefined` / `null` message text is modelled as `none`.
-/

namespace Pagination

/-- A JavaScript runtime value, as far as the configuration setters of
the library inspect one: `typeof v` distinguishes numbers (payload a
rational, since JS numbers are not integers) from everything else. -/
inductive JSValue where
  | num (q : ℚ)
  | str (s : String)
  | boolean (b : Bool)
  | nullV
  | undefinedV
deriving Repr, DecidableEq

/-- Model of the JS check `typeof v === 'number'`. -/
def JSValue.isNumber : JSValue → Bool
  | .num _ => true
  | _ => false

/-- The slice of FieldsEmbed configuration state touched by
`setElementsPerPage` (FieldsEmbed.ts line 19), kept at the JS-number
level because the setter accepts any JS number. -/
structure FieldsNumberConfig where
  elementsPerPage : ℚ
deriving Repr, DecidableEq

namespace FieldsEmbed

/-- FieldsEmbed.setElementsPerPage (FieldsEmbed.ts lines 120-126):
throws a TypeError when `typeof max !== 'number'`, otherwise assigns
`this.elementsPerPage = max` and returns `this`. No positivity or
integrality check appears in the source. -/
def setElementsPerPage (max : JSValue) (s : FieldsNumberConfig) :
    Except String FieldsNumberConfig :=
  match max with
  | .num q => .ok { s with elementsPerPage := q }
  | _ => .error "setElementsPerPage() only accepts number type."

end FieldsEmbed

/-- A field value of the FieldsEmbed template embed: either a plain
string (added via RichEmbed.addField) or a per-element formatter
function (added via FieldsEmbed.formatField). -/
inductive FieldValue (α : Type) where
  | staticVal (s : String)
  | fn (f : α → String)

/-- Model of the JS check `typeof field.value === 'function'`. -/
def FieldValue.isFn {α : Type} : FieldValue α → Bool
  | .fn _ => true
  | .staticVal _ => false

/-- One field of the FieldsEmbed template RichEmbed. -/
structure EmbedFieldR (α : Type) where
  name : String
  value : FieldValue α
  inline : Bool

/-- The RichEmbed template of a FieldsEmbed session, restricted to the
part the pagination code reads and writes: its field list. -/
structure RichEmbedR (α : Type) where
  fields : List (EmbedFieldR α)

/-- State of a FieldsEmbed session (FieldsEmbed.ts together with the
fields it inherits from the base class: `array`, `page`, `pages`,
`pageIndicator`, `clientAssets.message`, `channel`). The message
handle is `Option Unit`: `some ()` when `clientAssets.message` holds a
message, `none` when it is unset. -/
structure FieldsState (α : Type) where
  array : List α
  page : Nat
  pages : Nat
  elementsPerPage : Nat
  pageIndicator : Bool
  embed : RichEmbedR α
  clientAssetsMessage : Option Unit

namespace FieldsEmbed

/-- FieldsEmbed.elementList (FieldsEmbed.ts lines 33-38):
`this.array.slice(begin, begin + elementsPerPage)` with
`begin = (page - 1) * elementsPerPage`. JS `Array.slice(b, e)` with
`0 ≤ b ≤ e` returns the elements at indices `b ≤ i < min(e, length)`,
which is `(drop b).take (e - b)`. The model assumes `page ≥ 1` (`Nat`
subtraction), which the session invariant guarantees. -/
def elementList {α : Type} (s : FieldsState α) : List α :=
  ((s.array.drop ((s.page - 1) * s.elementsPerPage)).take s.elementsPerPage)

/-- The page-count computation of FieldsEmbed.build (FieldsEmbed.ts
line 77): `Math.ceil(this.array.length / this.elementsPerPage)`,
taken over ℚ to model real-valued JS division. (For
`elementsPerPage = 0` JS yields Infinity while this model yields 0;
the claims only concern positive `elementsPerPage`.) -/
def buildPages {α : Type} (s : FieldsState α) : Nat :=
  ⌈(s.array.length : ℚ) / (s.elementsPerPage : ℚ)⌉₊

end FieldsEmbed

namespace Embeds

/-- The page-count computation of Embeds.build (Embeds.ts line 119):
`this.pages = this.array.length`. Stated over the length so it can be
shared by the build model below. -/
def buildPagesOf (len : Nat) : Nat := len

end Embeds

/-- The author data of a discord.js MessageEmbed. -/
structure EmbedAuthorR where
  name : String
  iconURL : Option String
  url : Option String
deriving Repr, DecidableEq

/-- The footer data of a discord.js MessageEmbed. -/
structure EmbedFooterR where
  text : String
  iconURL : Option String
deriving Repr, DecidableEq

/-- One (plain, string-valued) field of a discord.js MessageEmbed. -/
structure EmbedFieldE where
  name : String
  value : String
  inline : Bool
deriving Repr, DecidableEq

/-- A discord.js MessageEmbed, restricted to the properties the Embeds
bulk setters touch. -/
structure MessageEmbedR where
  title : Option String
  description : Option String
  url : Option String
  color : Option Int
  thumbnail : Option String
  image : Option String
  author : Option EmbedAuthorR
  footer : Option EmbedFooterR
  fields : List EmbedFieldE
deriving Repr, DecidableEq

namespace MessageEmbedR

/-- discord.js MessageEmbed.setTitle (external dependency, modelled as
the record update it performs). -/
def setTitle (t : String) (e : MessageEmbedR) : MessageEmbedR :=
  { e with title := some t }

/-- discord.js MessageEmbed.setDescription (external dependency). -/
def setDescription (d : String) (e : MessageEmbedR) : MessageEmbedR :=
  { e with description := some d }

/-- discord.js MessageEmbed.setColor (external dependency; the resolved
color is an integer). -/
def setColor (c : Int) (e : MessageEmbedR) : MessageEmbedR :=
  { e with color := some c }

/-- discord.js MessageEmbed.setFooter (external dependency). -/
def setFooter (t : String) (icon : Option String) (e : MessageEmbedR) :
    MessageEmbedR :=
  { e with footer := some { text := t, iconURL := icon } }

/-- discord.js MessageEmbed.setImage (external dependency). -/
def setImage (u : String) (e : MessageEmbedR) : MessageEmbedR :=
  { e with image := some u }

/-- discord.js MessageEmbed.setThumbnail (external dependency). -/
def setThumbnail (u : String) (e : MessageEmbedR) : MessageEmbedR :=
  { e with thumbnail := some u }

/-- discord.js MessageEmbed.setURL (external dependency). -/
def setURL (u : String) (e : MessageEmbedR) : MessageEmbedR :=
  { e with url := some u }

/-- discord.js MessageEmbed.setAuthor (external dependency). -/
def setAuthor (n : String) (icon u : Option String) (e : MessageEmbedR) :
    MessageEmbedR :=
  { e with author := some { name := n, iconURL := icon, url := u } }

/-- discord.js MessageEmbed.addField (external dependency): appends one
field. -/
def addField (n v : String) (inl : Bool) (e : MessageEmbedR) : MessageEmbedR :=
  { e with fields := e.fields ++ [{ name := n, value := v, inline := inl }] }

end MessageEmbedR

/-- State of an Embeds session (Embeds.ts together with the fields it
inherits from the base class). The message handle is `Option Unit` as
in `FieldsState`. -/
structure EmbedsState where
  array : List MessageEmbedR
  page : Nat
  pages : Nat
  pageIndicator : Bool
  clientAssetsMessage : Option Unit
deriving Repr, DecidableEq

/-- A transport side effect performed by `_loadList`: sending a fresh
message or editing the existing one, each carrying the optional
indicator text and the rendered artifact. -/
inductive Effect (A : Type) where
  | send (text : Option String) (artifact : A)
  | edit (text : Option String) (artifact : A)

/-- The indicator text of an effect. -/
def Effect.text {A : Type} : Effect A → Option String
  | .send t _ => t
  | .edit t _ => t

/-- The page-indicator expression shared verbatim by
FieldsEmbed._loadList (FieldsEmbed.ts lines 147-151, `undefined`
branch) and Embeds._loadList (Embeds.ts lines 287-291, `null` branch):
`pageIndicator ? (pages === 1 ? nothing : text) : nothing`. -/
def shouldIndicate (pageIndicator : Bool) (page pages : Nat) : Option String :=
  if pageIndicator then
    if pages = 1 then none
    else some ("Page " ++ toString page ++ " of " ++ toString pages)
  else none

namespace Embeds

/-- Embeds.currentEmbed (Embeds.ts lines 45-47):
`this.array[this.page - 1]`; JS indexing out of bounds yields
`undefined`, modelled as `none`. -/
def currentEmbed (s : EmbedsState) : Option MessageEmbedR :=
  s.array[s.page - 1]?

/-- Embeds._loadList (Embeds.ts lines 286-296): computes the indicator
text, then unconditionally calls `this.clientAssets.message.edit(...)`.
When no message handle exists this is a JS TypeError (method call on
`undefined`), modelled as `.error`; no send path exists in this mode. -/
def loadList (s : EmbedsState) :
    Except String (EmbedsState × Effect (Option MessageEmbedR)) :=
  let ind := shouldIndicate s.pageIndicator s.page s.pages
  match s.clientAssetsMessage with
  | some _ => .ok (s, .edit ind (currentEmbed s))
  | none =>
      .error "TypeError: Cannot read property edit of undefined"

/-- Modelled from the spec: `_verify()` of the base class, whose source
is not under src/. Per the spec it is a pure checklist (array
non-empty, positive timeout and elementsPerPage, transport
permissions) that throws a ConfigError on failure and sends nothing.
Only the checks expressible over this state are modelled; transport
permissions and the timeout are outside the model. -/
def verify (s : EmbedsState) : Except String Unit :=
  if s.array.length = 0 then
    .error "ConfigError: array is empty"
  else .ok ()

/-- Embeds.build (Embeds.ts lines 118-125): sets
`this.pages = this.array.length`, runs `_verify()`, emits `start`, and
delegates to `_loadList`. -/
def build (s : EmbedsState) :
    Except String (EmbedsState × Effect (Option MessageEmbedR)) :=
  let s1 := { s with pages := buildPagesOf s.array.length }
  match verify s1 with
  | .error e => .error e
  | .ok _ => loadList s1

end Embeds

/-- A candidate element of the array handed to Embeds.setArray: either
an actual MessageEmbed instance or any other JS value (failing the
`instanceof MessageEmbed` check). -/
inductive ElemVal where
  | embed (e : MessageEmbedR)
  | notEmbed
deriving Repr, DecidableEq

/-- The argument of Embeds.setArray: a JS array of candidate values, or
any non-array value (failing `Array.isArray`). -/
inductive EmbedsArrayArg where
  | arr (l : List ElemVal)
  | nonArray
deriving Repr, DecidableEq

namespace Embeds

/-- The element-check loop of Embeds.setArray (Embeds.ts lines
136-139): scans from index 0 and throws at the first element that is
not a MessageEmbed instance, naming its index; when all pass, the
(unchanged) embeds are stored. -/
def checkEmbeds : Nat → List ElemVal → Except String (List MessageEmbedR)
  | _, [] => .ok []
  | i, .embed e :: rest => (checkEmbeds (i + 1) rest).map (fun es => e :: es)
  | i, .notEmbed :: _ =>
      .error ("(MessageEmbeds[" ++ toString i ++
        "]) Cannot invoke Embeds class with an invalid MessageEmbed instance.")

/-- Embeds.setArray (Embeds.ts lines 131-144): throws unless the input
is a non-empty JS array; throws at the first element that is not a
MessageEmbed instance; otherwise assigns `this.array = array` and
returns `this`. -/
def setArray (a : EmbedsArrayArg) (s : EmbedsState) :
    Except String EmbedsState :=
  match a with
  | .nonArray =>
      .error "Cannot invoke Embeds class without a valid array to paginate."
  | .arr l =>
      if l.length = 0 then
        .error "Cannot invoke Embeds class without a valid array to paginate."
      else
        match checkEmbeds 0 l with
        | .error e => .error e
        | .ok es => .ok { s with array := es }

end Embeds

namespace FieldsEmbed

/-- FieldsEmbed._drawList (FieldsEmbed.ts lines 128-142): builds a
fresh RichEmbed copying the template, then re-adds every template
field, replacing a function-valued field by the string
`this.elementList.map(field.value).join('\n')` and keeping a static
field as is. The method assigns nothing to `this`, so its state-passing
embedding returns the state unchanged next to the artifact. -/
def drawList {α : Type} (s : FieldsState α) : FieldsState α × RichEmbedR α :=
  (s,
    { fields := s.embed.fields.map (fun f =>
        { name := f.name
          value := match f.value with
            | .fn g =>
                .staticVal (String.intercalate "\n" ((elementList s).map g))
            | .staticVal v => .staticVal v
          inline := f.inline }) })

/-- FieldsEmbed._loadList (FieldsEmbed.ts lines 145-159): renders via
`_drawList`, computes the indicator text, then edits
`clientAssets.message` when it exists and otherwise sends a fresh
message on the channel and stores the resulting handle. -/
def loadList {α : Type} (s : FieldsState α) :
    FieldsState α × Effect (RichEmbedR α) :=
  let embed := (drawList s).2
  let ind := shouldIndicate s.pageIndicator s.page s.pages
  match s.clientAssetsMessage with
  | some _ => (s, .edit ind embed)
  | none => ({ s with clientAssetsMessage := some () }, .send ind embed)

/-- Modelled from the spec: `_verify()` of the base class, whose source
is not under src/. Per the spec it is a pure checklist (array
non-empty, positive timeout and elementsPerPage, transport
permissions) that throws a ConfigError on failure and sends nothing.
Only the checks expressible over this state are modelled. -/
def verify {α : Type} (s : FieldsState α) : Except String Unit :=
  if s.array.length = 0 then
    .error "ConfigError: array is empty"
  else if s.elementsPerPage = 0 then
    .error "ConfigError: elementsPerPage must be positive"
  else .ok ()

/-- The per-field step of the field-rebuilding loop of
FieldsEmbed.build (FieldsEmbed.ts lines 81-88): a function-valued
field is re-added through `formatField` and a static field through
`RichEmbed.addField`; either way the field re-enters the list with the
same name, value and inline flag. -/
def rebuildField {α : Type} (f : EmbedFieldR α) : EmbedFieldR α :=
  match f.value with
  | .fn g => { name := f.name, value := .fn g, inline := f.inline }
  | .staticVal v => { name := f.name, value := .staticVal v, inline := f.inline }

/-- FieldsEmbed.build (FieldsEmbed.ts lines 76-98): computes
`this.pages = Math.ceil(array.length / elementsPerPage)`, runs
`_verify()`, rebuilds the template fields, throws when no rebuilt
field is function-valued (`hasPaginateField` falsy), emits `start`,
and delegates to `_loadList`. -/
def build {α : Type} (s : FieldsState α) :
    Except String (FieldsState α × Effect (RichEmbedR α)) :=
  let s1 := { s with pages := buildPages s }
  match verify s1 with
  | .error e => .error e
  | .ok _ =>
      let s2 := { s1 with
        embed := { s1.embed with fields := s1.embed.fields.map rebuildField } }
      if (s2.embed.fields.filter (fun f => f.value.isFn)).length = 0 then
        .error
          "Cannot invoke FieldsEmbed class without at least one formatted field to paginate."
      else .ok (loadList s2)

end FieldsEmbed

/-- The page bookkeeping of a live session, mode-agnostic: the part of
the base-class state the reaction dispatch reads and writes. -/
structure NavState where
  page : Nat
  pages : Nat
deriving Repr, DecidableEq

/-- A resolved reaction event, after authorization and emoji
resolution: a built-in navigation action, a jump sub-dialog outcome
(`some n` for a follow-up that parsed as the integer `n`, `none` for
an unparsable follow-up or sub-dialog timeout), the delete action, or
a registered function hook. -/
inductive NavEvent where
  | back
  | forward
  | first
  | last
  | jump (response : Option Int)
  | deleteAction
  | hook
deriving Repr, DecidableEq

/-- Modelled from the spec: the dispatch step of the ReactionRouter in
the base class, whose source is not under src/ (spec section 4.3).
`back` clamps to 1, `forward` clamps to `pages`, `first`/`last` go to
the boundaries, `jump` accepts a parsed integer only inside
`[1, pages]` and otherwise leaves `page` unchanged, `delete`
terminates without touching `page`, and a function hook may not mutate
`page`/`pages` through the contract. -/
def dispatchNav (s : NavState) (e : NavEvent) : NavState :=
  match e with
  | .back => { s with page := max 1 (s.page - 1) }
  | .forward => { s with page := min s.pages (s.page + 1) }
  | .first => { s with page := 1 }
  | .last => { s with page := s.pages }
  | .jump response =>
      match response with
      | some n =>
          if 1 ≤ n ∧ n ≤ (s.pages : Int) then { s with page := n.toNat }
          else s
      | none => s
  | .deleteAction => s
  | .hook => s

namespace Embeds

/-- Embeds.setTitle (Embeds.ts lines 242-249): `if (!title) return
this;` — a falsy (empty) string short-circuits — otherwise
`el.setTitle(title)` on every embed of the array. -/
def setTitle (title : String) (s : EmbedsState) : EmbedsState :=
  if title = "" then s
  else { s with array := s.array.map (MessageEmbedR.setTitle title) }

/-- Embeds.setDescription (Embeds.ts lines 178-185). -/
def setDescription (d : String) (s : EmbedsState) : EmbedsState :=
  if d = "" then s
  else { s with array := s.array.map (MessageEmbedR.setDescription d) }

/-- Embeds.setColor (Embeds.ts lines 165-172): `if (!color) return
this;` — the integer 0 is falsy. -/
def setColor (c : Int) (s : EmbedsState) : EmbedsState :=
  if c = 0 then s
  else { s with array := s.array.map (MessageEmbedR.setColor c) }

/-- Embeds.setFooter (Embeds.ts lines 192-199): falsy `text`
short-circuits; `iconURL` is optional and not checked. -/
def setFooter (t : String) (icon : Option String) (s : EmbedsState) :
    EmbedsState :=
  if t = "" then s
  else { s with array := s.array.map (MessageEmbedR.setFooter t icon) }

/-- Embeds.setImage (Embeds.ts lines 205-212). -/
def setImage (u : String) (s : EmbedsState) : EmbedsState :=
  if u = "" then s
  else { s with array := s.array.map (MessageEmbedR.setImage u) }

/-- Embeds.setThumbnail (Embeds.ts lines 218-225). -/
def setThumbnail (u : String) (s : EmbedsState) : EmbedsState :=
  if u = "" then s
  else { s with array := s.array.map (MessageEmbedR.setThumbnail u) }

/-- Embeds.setURL (Embeds.ts lines 255-262). -/
def setURL (u : String) (s : EmbedsState) : EmbedsState :=
  if u = "" then s
  else { s with array := s.array.map (MessageEmbedR.setURL u) }

/-- Embeds.setAuthor (Embeds.ts lines 152-159): falsy `name`
short-circuits; `iconURL` and `url` are optional and not checked. -/
def setAuthor (n : String) (icon u : Option String) (s : EmbedsState) :
    EmbedsState :=
  if n = "" then s
  else { s with array := s.array.map (MessageEmbedR.setAuthor n icon u) }

/-- Embeds.addField (Embeds.ts lines 66-73): `if (!name && !value)
return this;` — only when both are falsy does it short-circuit —
otherwise `el.addField(name, value, inline)` on every embed. -/
def addField (n v : String) (inl : Bool) (s : EmbedsState) : EmbedsState :=
  if n = "" ∧ v = "" then s
  else { s with array := s.array.map (MessageEmbedR.addField n v inl) }

end Embeds

/-- A MessageEmbed with every optional property unset. -/
def emptyEmbed : MessageEmbedR :=
  { title := none, description := none, url := none, color := none,
    thumbnail := none, image := none, author := none, footer := none,
    fields := [] }

/-- A concrete FieldsEmbed session over 25 numeric elements with 10
elements per page (the scenario of the spec), one formatted field, and
no message handle yet. -/
def sampleFields : FieldsState Nat :=
  { array := List.range 25, page := 1, pages := 3, elementsPerPage := 10,
    pageIndicator := true,
    embed := { fields := [{ name := "Name", value := .fn (fun n => toString n),
                            inline := true }] },
    clientAssetsMessage := none }

/-- The sample FieldsEmbed session positioned on page 2. -/
def sampleFieldsP2 : FieldsState Nat :=
  { sampleFields with page := 2 }

/-- A FieldsEmbed session whose only template field is static (no
formatted field to paginate). -/
def sampleFieldsStatic : FieldsState Nat :=
  { sampleFields with
    embed := { fields := [{ name := "Name", value := .staticVal "John",
                            inline := true }] } }

/-- A concrete Embeds session over three embeds with a message handle
present. -/
def sampleEmbeds : EmbedsState :=
  { array := [emptyEmbed, emptyEmbed, emptyEmbed], page := 2, pages := 3,
    pageIndicator := true, clientAssetsMessage := some () }

/-- The sample Embeds session with no message handle. -/
def sampleEmbedsNoHandle : EmbedsState :=
  { sampleEmbeds with clientAssetsMessage := none }

/-- The ceiling of the rational division of two naturals is the natural
ceiling division, for a positive divisor. -/
theorem natCeil_cast_div (l e : Nat) (he : 0 < e) :
    ⌈(l : ℚ) / (e : ℚ)⌉₊ = (l + e - 1) / e := by
  rw [← Nat.ceilDiv_eq_add_pred_div]
  refine eq_of_forall_ge_iff fun c => ?_
  rw [Nat.ceil_le, ceilDiv_le_iff_le_mul he,
    div_le_iff₀ (by exact_mod_cast he : (0:ℚ) < (e:ℚ))]
  rw [show ((c:ℚ) * (e:ℚ)) = ((e * c : ℕ) : ℚ) by push_cast; ring, Nat.cast_le]

/-- FieldsEmbed._loadList never changes `pages`. -/
theorem FieldsEmbed.loadList_pages {α : Type} (s : FieldsState α) :
    (FieldsEmbed.loadList s).1.pages = s.pages := by
  cases h : s.clientAssetsMessage <;> simp [FieldsEmbed.loadList, h]

/-- A successful FieldsEmbed.build carries the page count computed on
entry. -/
theorem FieldsEmbed.fieldsBuild_ok_pages {α : Type} (s : FieldsState α)
    (r : FieldsState α × Effect (RichEmbedR α))
    (hr : FieldsEmbed.build s = Except.ok r) :
    r.1.pages = FieldsEmbed.buildPages s := by
  unfold FieldsEmbed.build at hr
  dsimp only at hr
  split at hr
  · exact absurd hr (by simp)
  · split at hr
    · exact absurd hr (by simp)
    · simp only [Except.ok.injEq] at hr
      subst hr
      rw [FieldsEmbed.loadList_pages]

/-- A successful Embeds.build carries the page count computed on
entry. -/
theorem Embeds.embedsBuild_ok_pages (t : EmbedsState)
    (r : EmbedsState × Effect (Option MessageEmbedR))
    (hr : Embeds.build t = Except.ok r) :
    r.1.pages = Embeds.buildPagesOf t.array.length := by
  unfold Embeds.build at hr
  dsimp only at hr
  split at hr
  · exact absurd hr (by simp)
  · unfold Embeds.loadList at hr
    split at hr
    · simp only [Except.ok.injEq] at hr
      subst hr
      rfl
    · exact absurd hr (by simp)

/-- C1: for a non-empty element array and positive elementsPerPage,
the page count computed by build() is ceil(|elements| /
elementsPerPage) in field-grouping mode (FieldsEmbed.build, including
the state a successful build carries) and |elements| in
one-artifact-per-page mode (Embeds.build). -/
theorem c1_build_page_count {α : Type} (s : FieldsState α) (t : EmbedsState)
    (h1 : s.array ≠ []) (h2 : 0 < s.elementsPerPage) (h3 : t.array ≠ []) :
    FieldsEmbed.buildPages s
        = (s.array.length + s.elementsPerPage - 1) / s.elementsPerPage
      ∧ (∀ r, FieldsEmbed.build s = Except.ok r →
          r.1.pages
            = (s.array.length + s.elementsPerPage - 1) / s.elementsPerPage)
      ∧ Embeds.buildPagesOf t.array.length = t.array.length
      ∧ (∀ r, Embeds.build t = Except.ok r → r.1.pages = t.array.length) := by
  have hmain : FieldsEmbed.buildPages s
      = (s.array.length + s.elementsPerPage - 1) / s.elementsPerPage :=
    natCeil_cast_div s.array.length s.elementsPerPage h2
  refine ⟨hmain, fun r hr => ?_, rfl, fun r hr => Embeds.embedsBuild_ok_pages t r hr⟩
  rw [FieldsEmbed.fieldsBuild_ok_pages s r hr, hmain]

/-- Witness for C1 at the spec scenario: 25 elements and 10 per page
give 3 pages in field-grouping mode, and 3 embeds give 3 pages in
one-artifact-per-page mode. -/
theorem c1_build_page_count_witness :
    FieldsEmbed.buildPages sampleFields = 3
      ∧ Embeds.buildPagesOf sampleEmbeds.array.length = 3 := by
  have h := c1_build_page_count sampleFields sampleEmbeds
    (by decide) (by decide) (by decide)
  refine ⟨?_, ?_⟩
  · rw [h.1]; decide
  · rw [h.2.2.1]; decide

/-- C2: dispatching any resolved reaction event (built-in navigation,
jump resolution, delete, or a function hook) on a session satisfying
1 ≤ page ≤ pages yields a session still satisfying
1 ≤ page ≤ pages. -/
theorem c2_dispatch_invariant (s : NavState) (e : NavEvent)
    (h1 : 1 ≤ s.page) (h2 : s.page ≤ s.pages) :
    1 ≤ (dispatchNav s e).page
      ∧ (dispatchNav s e).page ≤ (dispatchNav s e).pages := by
  cases e with
  | back => simp only [dispatchNav]; omega
  | forward => simp only [dispatchNav]; omega
  | first => simp only [dispatchNav]; omega
  | last => simp only [dispatchNav]; omega
  | deleteAction => simp only [dispatchNav]; omega
  | hook => simp only [dispatchNav]; omega
  | jump r =>
      cases r with
      | none => simp only [dispatchNav]; omega
      | some n =>
          simp only [dispatchNav]
          by_cases hn : 1 ≤ n ∧ n ≤ (s.pages : Int)
          · rw [if_pos hn]
            obtain ⟨ha, hb⟩ := hn
            constructor <;> simp <;> omega
          · rw [if_neg hn]
            exact ⟨h1, h2⟩

/-- Witness for C2: a forward press on page 2 of 3 keeps the page in
bounds. -/
theorem c2_dispatch_invariant_witness :
    1 ≤ (dispatchNav ⟨2, 3⟩ NavEvent.forward).page
      ∧ (dispatchNav ⟨2, 3⟩ NavEvent.forward).page
          ≤ (dispatchNav ⟨2, 3⟩ NavEvent.forward).pages :=
  c2_dispatch_invariant ⟨2, 3⟩ NavEvent.forward (by decide) (by decide)

/-- C3: on a state with 1 ≤ page ≤ pages, the current page content is
the contiguous slice of the element array from (page−1)·elementsPerPage
up to (but excluding) min(page·elementsPerPage, |elements|) in
field-grouping mode, and the element at index page−1 in
one-artifact-per-page mode (where the invariant gives
pages = |elements|). -/
theorem c3_page_slice {α : Type} (s : FieldsState α) (t : EmbedsState)
    (h1 : 1 ≤ s.page) (h2 : s.page ≤ s.pages)
    (h3 : 1 ≤ t.page) (h4 : t.page ≤ t.pages) (h5 : t.pages = t.array.length) :
    FieldsEmbed.elementList s
        = (s.array.take (min (s.page * s.elementsPerPage) s.array.length)).drop
            ((s.page - 1) * s.elementsPerPage)
      ∧ ∃ hlt : t.page - 1 < t.array.length,
          Embeds.currentEmbed t = some (t.array.get ⟨t.page - 1, hlt⟩) := by
  constructor
  · have hp : s.page = (s.page - 1) + 1 := (Nat.succ_pred_eq_of_pos h1).symm
    have hmul : s.page * s.elementsPerPage
        = (s.page - 1) * s.elementsPerPage + s.elementsPerPage := by
      conv_lhs => rw [hp]
      rw [Nat.add_mul, Nat.one_mul]
    have hmin : s.array.take (min (s.page * s.elementsPerPage) s.array.length)
        = s.array.take (s.page * s.elementsPerPage) := by
      rcases le_or_lt (s.page * s.elementsPerPage) s.array.length with h | h
      · rw [min_eq_left h]
      · rw [min_eq_right h.le, List.take_length, List.take_of_length_le h.le]
    rw [hmin, hmul, List.drop_take, Nat.add_sub_cancel_left]
    rfl
  · have hlt : t.page - 1 < t.array.length := by omega
    refine ⟨hlt, ?_⟩
    unfold Embeds.currentEmbed
    rw [List.getElem?_eq_getElem hlt]
    simp

/-- Witness for C3: page 2 of the 25-element, 10-per-page session, and
page 2 of a three-embed session. -/
theorem c3_page_slice_witness :
    FieldsEmbed.elementList sampleFieldsP2
        = (sampleFieldsP2.array.take
            (min (sampleFieldsP2.page * sampleFieldsP2.elementsPerPage)
              sampleFieldsP2.array.length)).drop
            ((sampleFieldsP2.page - 1) * sampleFieldsP2.elementsPerPage)
      ∧ ∃ hlt : sampleEmbeds.page - 1 < sampleEmbeds.array.length,
          Embeds.currentEmbed sampleEmbeds
            = some (sampleEmbeds.array.get ⟨sampleEmbeds.page - 1, hlt⟩) :=
  c3_page_slice sampleFieldsP2 sampleEmbeds (by decide) (by decide) (by decide)
    (by decide) (by decide)

/-- checkEmbeds accepts a list of MessageEmbed instances and returns
them unchanged, whatever the start index. -/
theorem Embeds.checkEmbeds_map_embed (i : Nat) (es : List MessageEmbedR) :
    Embeds.checkEmbeds i (es.map ElemVal.embed) = Except.ok es := by
  induction es generalizing i with
  | nil => rfl
  | cons e rest ih => simp [Embeds.checkEmbeds, ih, Except.map]

/-- checkEmbeds rejects any list containing a non-MessageEmbed value,
whatever the start index. -/
theorem Embeds.checkEmbeds_mem_notEmbed (i : Nat) (l : List ElemVal)
    (h : ElemVal.notEmbed ∈ l) :
    ∃ m, Embeds.checkEmbeds i l = Except.error m := by
  induction l generalizing i with
  | nil => cases h
  | cons x rest ih =>
      cases x with
      | notEmbed => exact ⟨_, rfl⟩
      | embed e =>
          have h' : ElemVal.notEmbed ∈ rest := by simpa using h
          obtain ⟨m, hm⟩ := ih (i + 1) h'
          exact ⟨m, by simp [Embeds.checkEmbeds, hm, Except.map]⟩

/-- C4: Embeds.setArray errors on any non-array input, on the empty
array, and on any array containing a value that is not a MessageEmbed
instance; on a non-empty array of MessageEmbed instances it stores the
array unchanged and returns the session (only the array field
changes). -/
theorem c4_setArray (s : EmbedsState) (l : List ElemVal) :
    (∃ m, Embeds.setArray EmbedsArrayArg.nonArray s = Except.error m)
      ∧ (∃ m, Embeds.setArray (EmbedsArrayArg.arr []) s = Except.error m)
      ∧ (ElemVal.notEmbed ∈ l →
          ∃ m, Embeds.setArray (EmbedsArrayArg.arr l) s = Except.error m)
      ∧ (∀ es : List MessageEmbedR, l = es.map ElemVal.embed → l ≠ [] →
          Embeds.setArray (EmbedsArrayArg.arr l) s
            = Except.ok { s with array := es }) := by
  refine ⟨⟨_, rfl⟩, ⟨_, rfl⟩, fun h => ?_, fun es hes hne => ?_⟩
  · obtain ⟨m, hm⟩ := Embeds.checkEmbeds_mem_notEmbed 0 l h
    have hne : l ≠ [] := List.ne_nil_of_mem h
    refine ⟨m, ?_⟩
    unfold Embeds.setArray
    dsimp only
    rw [if_neg (fun hl => hne (List.length_eq_zero.mp hl)), hm]
  · subst hes
    unfold Embeds.setArray
    dsimp only
    rw [if_neg (fun hl => hne (List.length_eq_zero.mp hl)),
      Embeds.checkEmbeds_map_embed]

/-- Witness for C4: a singleton embed array is stored unchanged, and
an array with a non-embed second entry is rejected. -/
theorem c4_setArray_witness :
    Embeds.setArray (EmbedsArrayArg.arr [ElemVal.embed emptyEmbed])
        sampleEmbedsNoHandle
      = Except.ok { sampleEmbedsNoHandle with array := [emptyEmbed] }
    ∧ ∃ m,
        Embeds.setArray
            (EmbedsArrayArg.arr [ElemVal.embed emptyEmbed, ElemVal.notEmbed])
            sampleEmbedsNoHandle
          = Except.error m :=
  ⟨(c4_setArray sampleEmbedsNoHandle [ElemVal.embed emptyEmbed]).2.2.2
      [emptyEmbed] rfl (by decide),
   (c4_setArray sampleEmbedsNoHandle
      [ElemVal.embed emptyEmbed, ElemVal.notEmbed]).2.2.1 (by decide)⟩

/-- Counterexample for C5: the claim predicts a failure for n = 0, but
setElementsPerPage only checks `typeof max !== 'number'`: the call with
0 succeeds and stores elementsPerPage = 0. -/
theorem c5_counterexample :
    FieldsEmbed.setElementsPerPage (JSValue.num 0) { elementsPerPage := 10 }
        = Except.ok { elementsPerPage := 0 }
      ∧ ∀ m, FieldsEmbed.setElementsPerPage (JSValue.num 0)
          { elementsPerPage := 10 } ≠ Except.error m :=
  ⟨rfl, fun m h => by simp [FieldsEmbed.setElementsPerPage] at h⟩

/-- C5 (amended): setElementsPerPage fails exactly on arguments that
are not JS numbers; every number (including zero, negative, and
non-integer numbers) is stored as elementsPerPage and the session is
returned. -/
theorem c5_setElementsPerPage (v : JSValue) (s : FieldsNumberConfig) :
    (v.isNumber = false →
        ∃ m, FieldsEmbed.setElementsPerPage v s = Except.error m)
      ∧ ∀ q : ℚ, v = JSValue.num q →
          FieldsEmbed.setElementsPerPage v s
            = Except.ok { elementsPerPage := q } := by
  constructor
  · intro h
    cases v with
    | num q => simp [JSValue.isNumber] at h
    | str z => exact ⟨_, rfl⟩
    | boolean b => exact ⟨_, rfl⟩
    | nullV => exact ⟨_, rfl⟩
    | undefinedV => exact ⟨_, rfl⟩
  · intro q hq
    subst hq
    rfl

/-- Witness for C5 (amended): null is rejected, while the non-integer
number 1/2 is accepted and stored. -/
theorem c5_setElementsPerPage_witness :
    (∃ m, FieldsEmbed.setElementsPerPage JSValue.nullV { elementsPerPage := 10 }
        = Except.error m)
      ∧ FieldsEmbed.setElementsPerPage (JSValue.num (1/2))
          { elementsPerPage := 10 } = Except.ok { elementsPerPage := 1/2 } :=
  ⟨(c5_setElementsPerPage JSValue.nullV { elementsPerPage := 10 }).1 rfl,
   (c5_setElementsPerPage (JSValue.num (1/2)) { elementsPerPage := 10 }).2
      (1/2) rfl⟩

/-- Rebuilding a field through build()'s loop does not change whether
its value is a function. -/
theorem FieldsEmbed.rebuildField_isFn {α : Type} (f : EmbedFieldR α) :
    (FieldsEmbed.rebuildField f).value.isFn = f.value.isFn := by
  cases hv : f.value <;> simp [FieldsEmbed.rebuildField, hv, FieldValue.isFn]

/-- C6: when no template field is function-valued, FieldsEmbed.build
throws; an `.error` result carries no transport effect, so the error
is raised before any message is sent or edited. -/
theorem c6_build_no_format_field {α : Type} (s : FieldsState α)
    (h : ∀ f ∈ s.embed.fields, f.value.isFn = false) :
    ∃ m, FieldsEmbed.build s = Except.error m := by
  unfold FieldsEmbed.build
  dsimp only
  cases hv : FieldsEmbed.verify { s with pages := FieldsEmbed.buildPages s } with
  | error e => exact ⟨e, rfl⟩
  | ok u =>
      have hfilter : (s.embed.fields.map FieldsEmbed.rebuildField).filter
          (fun f => f.value.isFn) = [] := by
        rw [List.filter_eq_nil_iff]
        intro a ha
        obtain ⟨f, hf, rfl⟩ := List.mem_map.mp ha
        simp [FieldsEmbed.rebuildField_isFn, h f hf]
      rw [if_pos (by rw [hfilter]; rfl)]
      exact ⟨_, rfl⟩

/-- Witness for C6: a session whose only template field is static makes
build() throw. -/
theorem c6_build_no_format_field_witness :
    ∃ m, FieldsEmbed.build sampleFieldsStatic = Except.error m :=
  c6_build_no_format_field sampleFieldsStatic (by
    intro f hf
    simp [sampleFieldsStatic, sampleFields] at hf
    subst hf
    rfl)

/-- Counterexample for C7: on an Embeds session with no message handle
the claim predicts a fresh send, but Embeds._loadList unconditionally
calls edit on the absent handle: the call fails and nothing is sent. -/
theorem c7_counterexample :
    Embeds.loadList sampleEmbedsNoHandle
        = Except.error "TypeError: Cannot read property edit of undefined"
      ∧ ∀ r, Embeds.loadList sampleEmbedsNoHandle ≠ Except.ok r := by
  have he : Embeds.loadList sampleEmbedsNoHandle
      = Except.error "TypeError: Cannot read property edit of undefined" := rfl
  exact ⟨he, fun r h => Except.noConfusion (he ▸ h)⟩

/-- C7 (amended): in field-grouping mode the initial render sends a
fresh message and stores its handle when none exists and edits the
existing message when one is present; in one-artifact-per-page mode it
always edits the existing message handle, and fails without sending
when no handle exists. -/
theorem c7_initial_render {α : Type} (s : FieldsState α) (t : EmbedsState) :
    (s.clientAssetsMessage = none →
        FieldsEmbed.loadList s
          = ({ s with clientAssetsMessage := some () },
             Effect.send (shouldIndicate s.pageIndicator s.page s.pages)
               (FieldsEmbed.drawList s).2))
      ∧ (s.clientAssetsMessage = some () →
          FieldsEmbed.loadList s
            = (s, Effect.edit (shouldIndicate s.pageIndicator s.page s.pages)
                (FieldsEmbed.drawList s).2))
      ∧ (t.clientAssetsMessage = some () →
          Embeds.loadList t
            = Except.ok (t, Effect.edit
                (shouldIndicate t.pageIndicator t.page t.pages)
                (Embeds.currentEmbed t)))
      ∧ (t.clientAssetsMessage = none →
          ∃ m, Embeds.loadList t = Except.error m) := by
  refine ⟨fun h => ?_, fun h => ?_, fun h => ?_, fun h => ?_⟩
  · simp [FieldsEmbed.loadList, h]
  · simp [FieldsEmbed.loadList, h]
  · simp [Embeds.loadList, h]
  · exact ⟨"TypeError: Cannot read property edit of undefined",
      by simp [Embeds.loadList, h]⟩

/-- Witness for C7 (amended): the sample FieldsEmbed session with no
handle sends, and the sample Embeds session with a handle edits. -/
theorem c7_initial_render_witness :
    FieldsEmbed.loadList sampleFields
        = ({ sampleFields with clientAssetsMessage := some () },
           Effect.send (shouldIndicate sampleFields.pageIndicator
               sampleFields.page sampleFields.pages)
             (FieldsEmbed.drawList sampleFields).2)
      ∧ Embeds.loadList sampleEmbeds
          = Except.ok (sampleEmbeds, Effect.edit
              (shouldIndicate sampleEmbeds.pageIndicator sampleEmbeds.page
                sampleEmbeds.pages)
              (Embeds.currentEmbed sampleEmbeds)) :=
  ⟨(c7_initial_render sampleFields sampleEmbeds).1 rfl,
   (c7_initial_render sampleFields sampleEmbeds).2.2.1 rfl⟩

/-- C8: the field-grouping renderer leaves the whole session state
unchanged — in particular the element array, page, pages,
elementsPerPage, and the template embed's fields — and rendering again
from the state a render returns yields an equal artifact. -/
theorem c8_drawList_pure {α : Type} (s : FieldsState α) :
    (FieldsEmbed.drawList s).1 = s
      ∧ (FieldsEmbed.drawList s).1.array = s.array
      ∧ (FieldsEmbed.drawList s).1.page = s.page
      ∧ (FieldsEmbed.drawList s).1.pages = s.pages
      ∧ (FieldsEmbed.drawList s).1.elementsPerPage = s.elementsPerPage
      ∧ (FieldsEmbed.drawList s).1.embed.fields = s.embed.fields
      ∧ (FieldsEmbed.drawList ((FieldsEmbed.drawList s).1)).2
          = (FieldsEmbed.drawList s).2 :=
  ⟨rfl, rfl, rfl, rfl, rfl, rfl, rfl⟩

/-- C9: with the page indicator enabled the displayed text is exactly
"Page p of n" when n > 1 and nothing when n = 1; with it disabled
nothing is displayed; and both loaders attach exactly this indicator
text to the message they send or edit. -/
theorem c9_page_indicator {α : Type} (b : Bool) (p n : Nat)
    (s : FieldsState α) (t : EmbedsState) :
    (b = true → 1 < n →
        shouldIndicate b p n
          = some ("Page " ++ toString p ++ " of " ++ toString n))
      ∧ (b = true → n = 1 → shouldIndicate b p n = none)
      ∧ (b = false → shouldIndicate b p n = none)
      ∧ (FieldsEmbed.loadList s).2.text
          = shouldIndicate s.pageIndicator s.page s.pages
      ∧ (∀ r, Embeds.loadList t = Except.ok r →
          r.2.text = shouldIndicate t.pageIndicator t.page t.pages) := by
  refine ⟨fun hb hn => ?_, fun hb hn => ?_, fun hb => ?_, ?_, fun r hr => ?_⟩
  · subst hb
    unfold shouldIndicate
    rw [if_pos rfl, if_neg (by omega)]
  · subst hb hn
    rfl
  · subst hb
    rfl
  · cases h : s.clientAssetsMessage <;>
      simp [FieldsEmbed.loadList, h, Effect.text]
  · unfold Embeds.loadList at hr
    dsimp only at hr
    cases h : t.clientAssetsMessage with
    | none => rw [h] at hr; exact Except.noConfusion hr
    | some u =>
        rw [h] at hr
        simp only [Except.ok.injEq] at hr
        subst hr
        rfl

/-- Witness for C9: an enabled indicator on page 1 of 3 displays
exactly "Page 1 of 3". -/
theorem c9_page_indicator_witness :
    shouldIndicate true 1 3 = some "Page 1 of 3" := by
  have h := (c9_page_indicator true 1 3 sampleFields sampleEmbeds).1 rfl
    (by decide)
  rw [h]
  rfl

/-- Case split for a guarded update: taken guard keeps the first
branch, failed guard keeps the second. -/
theorem guard_branch {β : Type} {c : Prop} [Decidable c] (a b : β) :
    (c → (if c then a else b) = a) ∧ (¬c → (if c then a else b) = b) :=
  ⟨fun hc => if_pos hc, fun hc => if_neg hc⟩

/-- C10: each Embeds bulk styling setter returns the session with every
embed unchanged on a falsy required argument, and otherwise applies
the corresponding single-embed update uniformly to every embed of the
array and returns the session. -/
theorem c10_bulk_setters (s : EmbedsState) (ti de im th ur na va : String)
    (co : Int) (fo : String) (ic ic2 au : Option String) (an : String)
    (inl : Bool) :
    ((ti = "" → Embeds.setTitle ti s = s)
      ∧ (ti ≠ "" → Embeds.setTitle ti s
          = { s with array := s.array.map (MessageEmbedR.setTitle ti) }))
    ∧ ((de = "" → Embeds.setDescription de s = s)
      ∧ (de ≠ "" → Embeds.setDescription de s
          = { s with array := s.array.map (MessageEmbedR.setDescription de) }))
    ∧ ((co = 0 → Embeds.setColor co s = s)
      ∧ (co ≠ 0 → Embeds.setColor co s
          = { s with array := s.array.map (MessageEmbedR.setColor co) }))
    ∧ ((fo = "" → Embeds.setFooter fo ic s = s)
      ∧ (fo ≠ "" → Embeds.setFooter fo ic s
          = { s with array := s.array.map (MessageEmbedR.setFooter fo ic) }))
    ∧ ((im = "" → Embeds.setImage im s = s)
      ∧ (im ≠ "" → Embeds.setImage im s
          = { s with array := s.array.map (MessageEmbedR.setImage im) }))
    ∧ ((th = "" → Embeds.setThumbnail th s = s)
      ∧ (th ≠ "" → Embeds.setThumbnail th s
          = { s with array := s.array.map (MessageEmbedR.setThumbnail th) }))
    ∧ ((ur = "" → Embeds.setURL ur s = s)
      ∧ (ur ≠ "" → Embeds.setURL ur s
          = { s with array := s.array.map (MessageEmbedR.setURL ur) }))
    ∧ ((an = "" → Embeds.setAuthor an ic2 au s = s)
      ∧ (an ≠ "" → Embeds.setAuthor an ic2 au s
          = { s with array := s.array.map (MessageEmbedR.setAuthor an ic2 au) }))
    ∧ ((na = "" ∧ va = "" → Embeds.addField na va inl s = s)
      ∧ (¬(na = "" ∧ va = "") → Embeds.addField na va inl s
          = { s with
              array := s.array.map (MessageEmbedR.addField na va inl) })) := by
  unfold Embeds.setTitle Embeds.setDescription Embeds.setColor
    Embeds.setFooter Embeds.setImage Embeds.setThumbnail Embeds.setURL
    Embeds.setAuthor Embeds.addField
  exact ⟨guard_branch _ _, guard_branch _ _, guard_branch _ _,
    guard_branch _ _, guard_branch _ _, guard_branch _ _, guard_branch _ _,
    guard_branch _ _, guard_branch _ _⟩

/-- Witness for C10: on the sample session, setTitle with the empty
string is the identity, setTitle with "T" retitles every embed, and
addField with both arguments empty is the identity. -/
theorem c10_bulk_setters_witness :
    Embeds.setTitle "" sampleEmbeds = sampleEmbeds
      ∧ Embeds.setTitle "T" sampleEmbeds
          = { sampleEmbeds with
              array := sampleEmbeds.array.map (MessageEmbedR.setTitle "T") }
      ∧ Embeds.addField "" "" false sampleEmbeds = sampleEmbeds :=
  ⟨(c10_bulk_setters sampleEmbeds "" "" "" "" "" "" "" 0 "" none none none ""
      false).1.1 rfl,
   (c10_bulk_setters sampleEmbeds "T" "" "" "" "" "" "" 0 "" none none none ""
      false).1.2 (by decide),
   (c10_bulk_setters sampleEmbeds "" "" "" "" "" "" "" 0 "" none none none ""
      false).2.2.2.2.2.2.2.2.1 ⟨rfl, rfl⟩⟩

end Pagination
